import Mathlib

/-!
Verification of the protocol engine of `mackerel-plugin-smartmeter`.

The Go sources are embedded shallowly:
* bytes are `Nat` values, byte strings are `List Nat`; conversions that Go
  performs through its integer types (`uint8(..)`, `& 0xffff`, ...) appear as
  explicit `% 2^w` operations;
* Go strings are `List Char` (`Str`), Go string functions (`strings.HasPrefix`,
  `strings.SplitN`, `strconv.ParseInt`, `hex.DecodeString`) are translated
  one-to-one below;
* the serial-line channel is a `List Str`: consuming a line is taking the head,
  an exhausted list models the channel being closed (or, equivalently in this
  untimed model, an idle timeout expiring);
* the process-global random source is an injected list of draws;
* fallible code returns `Option`/`Except`, and functions whose interesting
  behaviour is their side effects additionally return an event trace.
-/

namespace Mpsm

abbrev Str := List Char

/-! ## Frame codec: `src/lib/echoframe.go` -/

/-- Constant `HeaderEchonetLite = 0x1081` (echoframe.go line 16). -/
def HeaderEchonetLite : Nat := 0x1081

/-- Constant `Controller ClassCode = 0x05ff01` (echoframe.go line 17). -/
def Controller : Nat := 0x05ff01

/-- Constant `SmartElectricMeter ClassCode = 0x028801` (echoframe.go line 18). -/
def SmartElectricMeter : Nat := 0x028801

/-- Constant `Get ServiceCode = 0x62` (echoframe.go line 19). -/
def Get : Nat := 0x62

/-- Constant `GetRes ServiceCode = 0x72` (echoframe.go line 20). -/
def GetRes : Nat := 0x72

/-- Constant `InstantaneousElectricPower PropertyCode = 0xe7` (echoframe.go line 24). -/
def InstantaneousElectricPower : Nat := 0xe7

/-- Constant `InstantaneousCurrent PropertyCode = 0xe8` (echoframe.go line 25). -/
def InstantaneousCurrent : Nat := 0xe8

/-- The `EchoFrame` struct (echoframe.go lines 28-35).  `TID` is a `uint16`,
`SEOJ`/`DEOJ` are 24-bit class codes, `ESV` is a byte, `EPC` the ordered
property codes and `EDT` the ordered property values. -/
structure EchoFrame where
  TID : Nat
  SEOJ : Nat
  DEOJ : Nat
  ESV : Nat
  EPC : List Nat
  EDT : List (List Nat)
  deriving DecidableEq

/-- Method `RegenerateTID` (echoframe.go lines 165-167): `f.TID = uint16(rand.Int31n(0x10000))`.
The random draw is injected as the argument `r`; `rand.Int31n(0x10000)` yields a
value in `[0, 0x10000)`, embedded as `r % 0x10000`. -/
def RegenerateTID (f : EchoFrame) (r : Nat) : EchoFrame :=
  { f with TID := r % 0x10000 }

/-- Constructor `NewEchoFrame` (echoframe.go lines 38-59).  The constructor regenerates the
TID (random draw injected as `r`), sets `SEOJ = Controller`, and copies the
first `opc` entries of `epc`/`edt`, where `opc = len(epc)` shrunk to `len(edt)`
when `edt` is non-nil and shorter.  A Go `nil` value slice is `none`; with
`edt = nil` every copied value is `nil`, modelled as `[]`. -/
def NewEchoFrame (r : Nat) (dstClassCode : Nat) (esv : Nat) (epc : List Nat)
    (edt : Option (List (List Nat))) : EchoFrame :=
  let opc : Nat :=
    match edt with
    | none => epc.length
    | some l => if epc.length > l.length then l.length else epc.length
  { TID := r % 0x10000
    SEOJ := Controller
    DEOJ := dstClassCode
    ESV := esv
    EPC := epc.take opc
    EDT :=
      match edt with
      | none => List.replicate opc []
      | some l => l.take opc }

/-- The property-reading loop of `ParseEchoFrame` (echoframe.go lines 87-102):
starting at offset `i` with `n` declared properties left, read an
`(EPC, PDC, EDT)` triplet per property; fail (`Too short ECHONET Lite frame`)
when fewer than two bytes remain for `EPC`/`PDC` or when the declared `PDC`
exceeds the remaining buffer. -/
def parseProps (raw : List Nat) : Nat → Nat → Option (List (Nat × List Nat))
  | _, 0 => some []
  | i, n + 1 =>
    if raw.length < i + 2 then none
    else
      let lenEDT := raw.getD (i + 1) 0
      if raw.length < i + 2 + lenEDT then none
      else
        match parseProps raw (i + 2 + lenEDT) n with
        | none => none
        | some rest => some ((raw.getD i 0, (raw.drop (i + 2)).take lenEDT) :: rest)

/-- Decoder `ParseEchoFrame` (echoframe.go lines 62-105).  Rejects buffers shorter than
14 bytes, rejects a leading 16-bit word other than `0x1081`, reads the TID from
bytes 2-3, `SEOJ` from `Uint32(raw[3:7]) & 0xffffff`, `DEOJ` from
`Uint32(raw[6:10]) & 0xffffff`, `ESV` from byte 10 and the property count from
byte 11, then reads that many `(code, length, value)` triplets. -/
def ParseEchoFrame (raw : List Nat) : Option EchoFrame :=
  if raw.length < 14 then none
  else if raw.getD 0 0 * 256 + raw.getD 1 0 ≠ HeaderEchonetLite then none
  else
    match parseProps raw 12 (raw.getD 11 0) with
    | none => none
    | some props =>
      some
        { TID := raw.getD 2 0 * 256 + raw.getD 3 0
          SEOJ := (raw.getD 3 0 * 16777216 + raw.getD 4 0 * 65536 +
              raw.getD 5 0 * 256 + raw.getD 6 0) % 16777216
          DEOJ := (raw.getD 6 0 * 16777216 + raw.getD 7 0 * 65536 +
              raw.getD 8 0 * 256 + raw.getD 9 0) % 16777216
          ESV := raw.getD 10 0
          EPC := props.map Prod.fst
          EDT := props.map Prod.snd }

/-- The property-writing loop of `Build` (echoframe.go lines 123-130): per
property emit the code byte, `uint8(len(EDT[i]))` and the value bytes.  The Go
loop runs over `len(EPC)` indices of both slices; it is total on frames
satisfying `EPC.length = EDT.length`, the invariant every constructor
establishes. -/
def buildProps : List Nat → List (List Nat) → List Nat
  | epc :: epcs, edt :: edts => epc :: edt.length % 256 :: (edt ++ buildProps epcs edts)
  | _, _ => []

/-- Encoder `Build` (echoframe.go lines 107-132): big-endian header `0x1081`, 16-bit
TID, three bytes (`>>16 & 0xff`, `& 0xffff`) for each of `SEOJ` and `DEOJ`, the
service byte, `uint8` property count, then the property triplets. -/
def Build (f : EchoFrame) : List Nat :=
  16 :: 129 :: f.TID / 256 % 256 :: f.TID % 256 ::
    f.SEOJ / 65536 % 256 :: f.SEOJ % 65536 / 256 :: f.SEOJ % 65536 % 256 ::
    f.DEOJ / 65536 % 256 :: f.DEOJ % 65536 / 256 :: f.DEOJ % 65536 % 256 ::
    f.ESV :: f.EPC.length % 256 :: buildProps f.EPC f.EDT

/-- The property-comparison loop of `CorrespondTo` (echoframe.go lines
155-160), reached only after the two lists were checked to have equal, nonzero
length. -/
def epcEq : List Nat → List Nat → Bool
  | [], _ => true
  | x :: xs, y :: ys => if x ≠ y then false else epcEq xs ys
  | _ :: _, [] => false

/-- Predicate `CorrespondTo` (echoframe.go lines 135-162): equal TIDs, swapped
`SEOJ`/`DEOJ`, service codes differing by exactly `±0x10` (computed over `int`),
a nonzero and equal property count, and positionally equal property codes. -/
def CorrespondTo (f target : EchoFrame) : Bool :=
  if f.TID ≠ target.TID then false
  else if f.SEOJ ≠ target.DEOJ then false
  else if f.DEOJ ≠ target.SEOJ then false
  else if (f.ESV : Int) - (target.ESV : Int) ≠ -16 ∧
      (f.ESV : Int) - (target.ESV : Int) ≠ 16 then false
  else if f.EPC.length = 0 then false
  else if f.EPC.length ≠ target.EPC.length then false
  else epcEq f.EPC target.EPC

/-- Statement-side predicate for the structural well-formedness that
`ParseEchoFrame`'s loop checks: starting at offset `i` with `n` declared
properties left, every declared `(code, length, value)` triplet lies entirely
inside the buffer.  `false` means some declared triplet extends past the end. -/
def tripletsFitFrom (raw : List Nat) : Nat → Nat → Bool
  | _, 0 => true
  | i, n + 1 =>
    decide (i + 2 ≤ raw.length) &&
      decide (i + 2 + raw.getD (i + 1) 0 ≤ raw.length) &&
      tripletsFitFrom raw (i + 2 + raw.getD (i + 1) 0) n

/-! ## Line-oriented SK command driver: `src/lib/smartmeter.go`

Lines received from the serial device are modelled as a `List Str` consumed
front to back.  An exhausted list models the closed channel (`!ok`) — in this
untimed embedding the 10-second / 3-second idle timers that also end a wait
are not represented separately. -/

/-- Marker `"FAIL "` (smartmeter.go line 201). -/
def failMarker : Str := ("FAIL ").toList

/-- Marker `"OK"` (smartmeter.go line 207). -/
def okMarker : Str := ("OK").toList

/-- Marker `"SKLL64 "` (smartmeter.go line 211). -/
def skll64Marker : Str := ("SKLL64 ").toList

/-- Marker `"ERXUDP "` (smartmeter.go line 324). -/
def erxudpMarker : Str := ("ERXUDP ").toList

/-- Marker `"EVENT 24 "` (smartmeter.go line 262). -/
def event24Marker : Str := ("EVENT 24 ").toList

/-- Marker `"EVENT 25 "` (smartmeter.go line 265). -/
def event25Marker : Str := ("EVENT 25 ").toList

/-- Outcome of `sendSKCommand` (smartmeter.go lines 169-218): success with the
accumulated reply text, rejection with the offending `FAIL` line, or the line
channel closing mid-command (`"SK command read error"`). -/
inductive SKResult where
  | ok (res : Str)
  | rejected (line : Str)
  | readError
  deriving DecidableEq

/-- The receive loop of `sendSKCommand` (smartmeter.go lines 193-217) with the
accumulated reply `res`; returns the outcome together with the lines left in
the channel.  Per received line, in source order: a `"FAIL "`-prefixed line
rejects the command; the literal `"OK"` line succeeds with the accumulation so
far; otherwise the line is appended and, for `"SKLL64 "` commands only, the
command succeeds immediately. -/
def sendSKCommandLoop (cmd : Str) : List Str → Str → SKResult × List Str
  | [], _ => (.readError, [])
  | line :: rest, res =>
    if List.isPrefixOf failMarker line then (.rejected line, rest)
    else if line = okMarker then (.ok res, rest)
    else if List.isPrefixOf skll64Marker cmd then (.ok (res ++ line), rest)
    else sendSKCommandLoop cmd rest (res ++ line)

/-- Driver `sendSKCommand` (smartmeter.go lines 169-218): write the command (the write
itself has no observable effect in this model) and run the receive loop with an
empty accumulator. -/
def sendSKCommand (cmd : Str) (input : List Str) : SKResult × List Str :=
  sendSKCommandLoop cmd input []

/-! ### String helpers used by the scan loop -/

/-- Split off everything before the first `' '` of `s`, if any (the single
splitting step of Go `strings.SplitN(s, " ", n)`). -/
def splitFirstSpace : Str → Option (Str × Str)
  | [] => none
  | c :: cs =>
    if c = ' ' then some ([], cs)
    else
      match splitFirstSpace cs with
      | none => none
      | some (a, b) => some (c :: a, b)

/-- Go `strings.SplitN(s, " ", n)`: at most `n` tokens, the last token keeping
every remaining separator. -/
def splitN (s : Str) : Nat → List Str
  | 0 => []
  | 1 => [s]
  | n + 2 =>
    match splitFirstSpace s with
    | none => [s]
    | some (a, b) => a :: splitN b (n + 1)

/-- Value of one hexadecimal digit, accepting both cases (as Go's
`strconv.ParseInt(_, 16, _)` and `hex.DecodeString` do). -/
def hexDigitVal (c : Char) : Option Nat :=
  if '0' ≤ c ∧ c ≤ '9' then some (c.toNat - 48)
  else if 'a' ≤ c ∧ c ≤ 'f' then some (c.toNat - 87)
  else if 'A' ≤ c ∧ c ≤ 'F' then some (c.toNat - 55)
  else none

/-- Accumulating digit loop of `strconv.ParseInt(s, 16, 32)`. -/
def parseHexAux : Str → Nat → Option Nat
  | [], acc => some acc
  | c :: cs, acc =>
    match hexDigitVal c with
    | none => none
    | some d => parseHexAux cs (acc * 16 + d)

/-- Go `strconv.ParseInt(s, 16, 32)` on the unsigned hexadecimal strings the
device produces: fails on an empty string, on a non-hex character, and on a
value outside the signed 32-bit range.  (The optional sign accepted by
`ParseInt` never occurs in `ERXUDP` length fields and is not modelled.) -/
def parseHexInt32 (s : Str) : Option Nat :=
  if s = [] then none
  else
    match parseHexAux s 0 with
    | none => none
    | some v => if v < 2147483648 then some v else none

/-- Go `hex.DecodeString`: fails on an odd-length string or a non-hex
character, otherwise yields one byte per digit pair. -/
def hexDecode : Str → Option (List Nat)
  | [] => some []
  | [_] => none
  | c1 :: c2 :: cs =>
    match hexDigitVal c1, hexDigitVal c2 with
    | some d1, some d2 =>
      match hexDecode cs with
      | none => none
      | some bs => some ((d1 * 16 + d2) :: bs)
    | _, _ => none

/-! ### Response scan: `readCorrespondingEchonetFrame` -/

/-- Message `"Unknown ERXUDP format: "` (smartmeter.go line 337). -/
def unknownFormatMsg : Str := ("Unknown ERXUDP format: ").toList

/-- Message `"ERXUDP parse error (not a number) : "` (smartmeter.go lines 341, 353). -/
def notNumberMsg : Str := ("ERXUDP parse error (not a number) : ").toList

/-- Message `"ERXUDP data length mismatch: "` (smartmeter.go lines 349, 358). -/
def lengthMismatchMsg : Str := ("ERXUDP data length mismatch: ").toList

/-- Message `"ERXUDP parse error (not a hexadecimal) : "` (smartmeter.go line 369). -/
def notHexMsg : Str := ("ERXUDP parse error (not a hexadecimal) : ").toList

/-- Result of one scan for a correlated response frame: a correlated frame was
found; the line source ran dry (closed channel, or equivalently the 3-second
idle timer in the untimed model); or one of the scan's own error returns
(smartmeter.go lines 337, 341, 349, 353, 358, 369) ended it. -/
inductive ScanOutcome where
  | found (fr : EchoFrame)
  | endOfInput
  | scanError (msg : Str)
  deriving DecidableEq

/-- The declared-length / payload resolution of the scan (smartmeter.go lines
345-360): when the payload's literal length matches neither the declared byte
count nor twice it, re-split the last token once (an interleaved RSSI field is
assumed), re-parse the declared length and re-check; any failure is an error
return. -/
def resolveData (line data0 : Str) (dataLen0 : Nat) : Except Str (Nat × Str) :=
  if data0.length ≠ dataLen0 ∧ data0.length ≠ 2 * dataLen0 then
    match splitN data0 2 with
    | b0 :: b1 :: _ =>
      match parseHexInt32 b0 with
      | none => .error (notNumberMsg ++ line)
      | some j =>
        if b1.length ≠ j ∧ b1.length ≠ 2 * j then .error (lengthMismatchMsg ++ line)
        else .ok (j, b1)
    | _ => .error (lengthMismatchMsg ++ line)
  else .ok (dataLen0, data0)

/-- Scanner `readCorrespondingEchonetFrame` (smartmeter.go lines 310-388).  Per line:
a non-`"ERXUDP "` line is skipped; an `ERXUDP` line is split into 9 (dev) or
10 (dse) tokens, too few being an error return; the declared length token is
parsed as hex (failure is an error return); the declared length and payload are
reconciled by `resolveData` (failure is an error return); the payload is taken
as raw binary when its literal length equals the declared count and otherwise
hex-decoded (failure is an error return); a payload whose frame decode fails is
skipped; a well-formed frame ends the scan only when it correlates with `req`. -/
def readCorrespondingEchonetFrame (dse : Bool) (req : EchoFrame) : List Str → ScanOutcome
  | [] => .endOfInput
  | line :: rest =>
    if List.isPrefixOf erxudpMarker line = false then
      readCorrespondingEchonetFrame dse req rest
    else
      let nToken := if dse then 10 else 9
      let a := splitN line nToken
      if a.length < nToken then .scanError (unknownFormatMsg ++ line)
      else
        match parseHexInt32 (a.getD (nToken - 2) []) with
        | none => .scanError (notNumberMsg ++ line)
        | some dataLen0 =>
          match resolveData line (a.getD (nToken - 1) []) dataLen0 with
          | .error msg => .scanError msg
          | .ok (dataLen, data) =>
            match
              if dataLen = data.length then Except.ok (data.map Char.toNat)
              else
                match hexDecode data with
                | some r => Except.ok r
                | none => Except.error (notHexMsg ++ line) with
            | .error msg => .scanError msg
            | .ok rawData =>
              match ParseEchoFrame rawData with
              | none => readCorrespondingEchonetFrame dse req rest
              | some res =>
                if CorrespondTo req res then .found res
                else readCorrespondingEchonetFrame dse req rest

/-! ### PANA authentication: the `Joining` phase of `execPANA` -/

/-- Observable side effects of the join phase (smartmeter.go lines 243-272):
the `SKJOIN` command being written, the `"PANA connection error. retrying..."`
log on an `EVENT 24` line, the `"endPANA"` log on an `EVENT 25` line, a
`tm.Reset` of the 10-second per-attempt timer, and a reset of the 20-second
total timer (which the source never performs: `tmTotal.Reset` does not occur). -/
inductive PanaEvent where
  | issuedJoin
  | loggedRetry
  | loggedEnd
  | resetAttemptTimer
  | resetTotalTimer
  deriving DecidableEq

/-- Terminal outcome of the join phase. -/
inductive PanaOutcome where
  | authenticated
  | linesExhausted
  | cmdError (r : SKResult)
  deriving DecidableEq

/-- The inner event loop of `execPANA` (smartmeter.go lines 249-271).  Per
line: an `"EVENT 24 "` line logs the retry message; an `"EVENT 25 "` line logs
`endPANA` and returns success; otherwise (including after an `EVENT 24`) the
per-attempt timer is reset and the loop continues.  Every `select` arm either
returns or continues this loop — none breaks back out to the enclosing `for`
at line 244, so the enclosing loop can never reach its second iteration and
`SKJOIN` is never written a second time.  An exhausted list models the closed
channel or an expired timer, all of which return an error. -/
def panaInner : List Str → List PanaEvent → List PanaEvent × PanaOutcome
  | [], tr => (tr, .linesExhausted)
  | line :: rest, tr =>
    let tr1 := if List.isPrefixOf event24Marker line then tr ++ [.loggedRetry] else tr
    if List.isPrefixOf event25Marker line then (tr1 ++ [.loggedEnd], .authenticated)
    else panaInner rest (tr1 ++ [.resetAttemptTimer])

/-- The `Joining` phase of `execPANA` (smartmeter.go lines 243-272): write
`SKJOIN` plus the peer address through `sendSKCommand`, then run the event
loop on the remaining lines.  A failed `SKJOIN` command is returned to the
caller. -/
def execPANAJoin (ipAddr : Str) (input : List Str) : List PanaEvent × PanaOutcome :=
  match sendSKCommand (("SKJOIN ").toList ++ ipAddr) input with
  | (.ok _, rest) => panaInner rest [.issuedJoin]
  | (e, _) => ([.issuedJoin], .cmdError e)

/-! ### Request/retry engine: `execEchoRequest` -/

/-- Reply suffix `" 02"` (smartmeter.go line 293). -/
def udpNoPana : Str := (" 02").toList

/-- Reply suffix `" 00"` (smartmeter.go line 296). -/
def udpSendOk : Str := (" 00").toList

/-- Uppercase hexadecimal digits of `n`, at least four of them (Go `%04X`). -/
def hex4 (n : Nat) : Str :=
  let s := (Nat.toDigits 16 n).map Char.toUpper
  List.replicate (4 - s.length) '0' ++ s

/-- The `SKSENDTO` command text (smartmeter.go lines 284-288), with
`secure = 1`, `port = 3610 = 0x0E1A`, `side = 0` and the raw frame bytes
spliced in verbatim (`%s` of a byte slice). -/
def mkSendCmd (dse : Bool) (ipAddr : Str) (rawFrame : List Nat) : Str :=
  if dse then
    ("SKSENDTO 1 ").toList ++ ipAddr ++ (" 0E1A 1 0 ").toList ++
      hex4 rawFrame.length ++ [' '] ++ rawFrame.map Char.ofNat
  else
    ("SKSENDTO 1 ").toList ++ ipAddr ++ (" 0E1A 1 ").toList ++
      hex4 rawFrame.length ++ [' '] ++ rawFrame.map Char.ofNat

/-- Terminal outcome of `execEchoRequest`: the result of the response scan
after a successful UDP send, the `"PANA unconnected?"` error on reply suffix
`" 02"`, a failed `SKSENDTO` command, or the retry loop still running when the
modelling fuel runs out (the Go loop is unbounded). -/
inductive EchoReqOutcome where
  | readResult (o : ScanOutcome)
  | panaUnconnected
  | sendError (r : SKResult)
  | fuelExhausted
  deriving DecidableEq

/-- Engine `execEchoRequest` (smartmeter.go lines 276-306), returning the TID used by
each transmission attempt, the sleeps performed (milliseconds, in order) and
the outcome.  Per iteration: build the frame, send the `SKSENDTO` command; a
command error is returned; a reply ending `" 02"` means no PANA session; a
reply ending `" 00"` hands over to the response scan; anything else sleeps the
current interval, doubles it, regenerates the TID from the next random draw
and retries. -/
def execEchoRequest (dse : Bool) (ipAddr : Str) :
    Nat → EchoFrame → Nat → List Str → List Nat → List Nat × List Nat × EchoReqOutcome
  | 0, _, _, _, _ => ([], [], .fuelExhausted)
  | fuel + 1, req, retryInterval, input, rng =>
    match sendSKCommand (mkSendCmd dse ipAddr (Build req)) input with
    | (.ok udpStatus, rest) =>
      if List.isSuffixOf udpNoPana udpStatus then ([req.TID], [], .panaUnconnected)
      else if List.isSuffixOf udpSendOk udpStatus then
        ([req.TID], [], .readResult (readCorrespondingEchonetFrame dse req rest))
      else
        let next := execEchoRequest dse ipAddr fuel (RegenerateTID req (rng.getD 0 0))
          (retryInterval * 2) rest (rng.drop 1)
        (req.TID :: next.1, retryInterval :: next.2.1, next.2.2)
    | (e, _) => ([req.TID], [], .sendError e)

/-! ### The reader goroutine of `FetchMetrics` -/

/-- Events of the reader goroutine (smartmeter.go lines 84-95): a line
published to the channel, the deferred `close(ch)`, or the `log.Fatal` exit. -/
inductive ReaderEvent where
  | emit (line : Str)
  | closedQueue
  | fatalExit
  deriving DecidableEq

/-- The reader goroutine of `FetchMetrics` (smartmeter.go lines 84-95): every
scanned line is sent to the channel; when the scan stops, a non-nil
`scanner.Err()` (read error, modelled by `readErr = true`) reaches
`log.Fatal`, which exits the process — `os.Exit` runs no deferred calls, so
the deferred `close(ch)` is skipped; only the clean end of stream returns
normally and runs the deferred `close(ch)`. -/
def readerTrace (lines : List Str) (readErr : Bool) : List ReaderEvent :=
  lines.map .emit ++ (if readErr then [.fatalExit] else [.closedQueue])

/-! ## Concrete vectors used by the closed theorems below -/

/-- The test vector of `TestParseEchoFrame` (hex
`1081000102880105FF017201E80400140064`). -/
def c9bytes : List Nat :=
  [0x10, 0x81, 0x00, 0x01, 0x02, 0x88, 0x01, 0x05, 0xFF, 0x01, 0x72, 0x01,
   0xE8, 0x04, 0x00, 0x14, 0x00, 0x64]

/-- The frame encoded by `c9bytes`. -/
def c9frame : EchoFrame :=
  { TID := 1, SEOJ := 0x028801, DEOJ := 0x05ff01, ESV := 0x72,
    EPC := [0xE8], EDT := [[0x00, 0x14, 0x00, 0x64]] }

/-- A zero-property frame; its encoding is exactly the 12-byte header. -/
def frameNoProps : EchoFrame :=
  { TID := 1, SEOJ := Controller, DEOJ := SmartElectricMeter, ESV := Get,
    EPC := [], EDT := [] }

/-- A one-property `Get` request frame. -/
def frameOneProp : EchoFrame :=
  { TID := 0xABCD, SEOJ := Controller, DEOJ := SmartElectricMeter, ESV := Get,
    EPC := [InstantaneousElectricPower], EDT := [[]] }

/-- A buffer that declares two properties but ends inside the second triplet. -/
def shortTripletBytes : List Nat :=
  [0x10, 0x81, 0x00, 0x01, 0x02, 0x88, 0x01, 0x05, 0xFF, 0x01, 0x72, 0x02,
   0xE8, 0x04, 0x00, 0x14, 0x00, 0x64, 0xE7]

/-- The request that `c9frame` answers. -/
def reqSample : EchoFrame :=
  { TID := 1, SEOJ := 0x05ff01, DEOJ := 0x028801, ESV := 0x62,
    EPC := [0xE8], EDT := [[]] }

/-- A well-formed dev-edition `ERXUDP` notification carrying `c9bytes` in
hex-ASCII (9 tokens, declared length `0x12 = 18` bytes, payload of 36 hex
digits). -/
def goodLine : Str :=
  ("ERXUDP FE80::1 FE80::2 0E1A 0E1A 001D129012345678 1 0012 1081000102880105FF017201E80400140064").toList

/-- An `ERXUDP` notification with too few tokens. -/
def badTokenLine : Str := ("ERXUDP x").toList

/-- A line that is not a datagram notification. -/
def nonNotifLine : Str := ("EVENT 21 FE80::1 00").toList

/-- A well-formed `ERXUDP` notification whose 2-byte payload is not a valid
frame (frame decode fails). -/
def decodeFailLine : Str := ("ERXUDP A B C D E 1 0002 0000").toList

/-- An `ERXUDP` notification whose declared-length token is not hexadecimal. -/
def notNumberLine : Str := ("ERXUDP A B C D E 1 XYZG 00").toList

/-- An `ERXUDP` notification whose payload length matches neither the declared
byte count nor twice it, with no RSSI field to fall back to. -/
def mismatchLine : Str := ("ERXUDP A B C D E 1 0003 00").toList

/-- An `ERXUDP` notification whose payload has matching length but is not
hexadecimal. -/
def notHexLine : Str := ("ERXUDP A B C D E 1 0002 zz!x").toList

/-- A peer address. -/
def ipSample : Str := ("FE80:0000:0000:0000:021D:1290:1234:5678").toList

/-- A link-layer-failure event line (`EVENT 24`). -/
def evt24Line : Str := ("EVENT 24 FE80:0000:0000:0000:021D:1290:1234:5678").toList

/-- An authentication-complete event line (`EVENT 25`). -/
def evt25Line : Str := ("EVENT 25 FE80:0000:0000:0000:021D:1290:1234:5678").toList

/-- A register-write command. -/
def cmdSREG : Str := ("SKSREG S2 21").toList

/-- An address-resolution command. -/
def cmdSKLL64 : Str := ("SKLL64 001D129012345678").toList

/-- A non-terminal reply line. -/
def lineE1 : Str := ("E1").toList

/-- A second non-terminal reply line. -/
def lineE2 : Str := ("E2").toList

/-- A failure reply line. -/
def lineFail : Str := ("FAIL ER04").toList

/-- An address reply line for `SKLL64`. -/
def lineAddr : Str := ("FE80:0000:0000:0000:021D:1290:1234:5678").toList

/-- The frame `execEchoRequest` is driven with in the concrete retry run
(initial TID 5). -/
def reqRetry : EchoFrame :=
  { TID := 5, SEOJ := Controller, DEOJ := SmartElectricMeter, ESV := Get,
    EPC := [InstantaneousCurrent], EDT := [[]] }

/-- An `EVENT 21` transmission report with status `01` (local send failure). -/
def e21Fail : Str := ("EVENT 21 FE80::1 01").toList

/-- An `EVENT 21` transmission report with status `00` (local send success). -/
def e21Ok : Str := ("EVENT 21 FE80::1 00").toList

/-- Device lines for three failed send attempts followed by a successful one:
each attempt's `SKSENDTO` reply is the `EVENT 21` report then `OK`. -/
def inputRetry : List Str :=
  [e21Fail, okMarker, e21Fail, okMarker, e21Fail, okMarker, e21Ok, okMarker]

/-- The random draws consumed by the three retries. -/
def rngRetry : List Nat := [7, 8, 9]

/-- Buffer of a one-property `Get` request with TID 0 (used to instantiate the
parse-invariant statement). -/
def c10bytes : List Nat :=
  [0x10, 0x81, 0x00, 0x00, 0x05, 0xFF, 0x01, 0x02, 0x88, 0x01, 0x62, 0x01,
   0xE7, 0x00]

/-- The frame encoded by `c10bytes`. -/
def c10frame : EchoFrame :=
  { TID := 0, SEOJ := 0x05ff01, DEOJ := 0x028801, ESV := 0x62,
    EPC := [0xE7], EDT := [[]] }

/-- A line for the reader-goroutine traces. -/
def lineX : Str := ("X").toList

/-! ## Helper lemmas -/

/-- The property loop of `ParseEchoFrame` inverts the property loop of
`Build`: with the encoded triplets placed after an arbitrary 12-byte (or any
length) preamble, parsing from the preamble's end recovers exactly the
`(code, value)` pairs, provided each value fits the one-byte length field. -/
theorem parseProps_append (epcs : List Nat) :
    ∀ (edts : List (List Nat)) (pre : List Nat),
      epcs.length = edts.length → (∀ v ∈ edts, v.length ≤ 255) →
      parseProps (pre ++ buildProps epcs edts) pre.length epcs.length
        = some (epcs.zip edts) := by
  induction epcs with
  | nil =>
    intro edts pre _ _
    simp [parseProps]
  | cons e es ih =>
    intro edts pre hlen hv
    cases edts with
    | nil => simp at hlen
    | cons d ds =>
      have hdle : d.length ≤ 255 := hv d (by simp)
      have hdmod : d.length % 256 = d.length := Nat.mod_eq_of_lt (by omega)
      have hraw : pre ++ buildProps (e :: es) (d :: ds)
          = (pre ++ e :: d.length % 256 :: d) ++ buildProps es ds := by
        simp [buildProps]
      have hqlen : (pre ++ e :: d.length % 256 :: d).length
          = pre.length + 2 + d.length := by
        simp; omega
      have hlen1 : (pre ++ buildProps (e :: es) (d :: ds)).length
          = pre.length + 2 + d.length + (buildProps es ds).length := by
        rw [hraw, List.length_append, hqlen]
      have hg0 : (pre ++ buildProps (e :: es) (d :: ds)).getD pre.length 0 = e := by
        rw [List.getD_append_right _ _ _ _ (Nat.le_refl _)]
        simp [buildProps]
      have hg1 : (pre ++ buildProps (e :: es) (d :: ds)).getD (pre.length + 1) 0
          = d.length % 256 := by
        rw [List.getD_append_right _ _ _ _ (by omega)]
        have : pre.length + 1 - pre.length = 1 := by omega
        rw [this]
        simp [buildProps]
      have hdrop : ((pre ++ buildProps (e :: es) (d :: ds)).drop (pre.length + 2)).take d.length
          = d := by
        have h2 : pre ++ buildProps (e :: es) (d :: ds)
            = (pre ++ [e, d.length % 256]) ++ (d ++ buildProps es ds) := by
          simp [buildProps]
        have h3 : (pre ++ [e, d.length % 256]).length = pre.length + 2 := by simp
        rw [h2, ← h3, List.drop_left, List.take_left]
      have hrec : parseProps (pre ++ buildProps (e :: es) (d :: ds))
          (pre.length + 2 + d.length) es.length = some (es.zip ds) := by
        rw [hraw, ← hqlen]
        exact ih ds _ (by simpa using hlen) (fun v hvm => hv v (by simp [hvm]))
      show parseProps (pre ++ buildProps (e :: es) (d :: ds)) pre.length (es.length + 1)
        = some ((e, d) :: es.zip ds)
      rw [parseProps]
      rw [if_neg (by omega)]
      rw [hg1, hdmod]
      rw [if_neg (by omega)]
      rw [hrec, hg0, hdrop]

/-- First projections of a zip of equally long lists. -/
theorem zip_fst (l1 : List Nat) :
    ∀ l2 : List (List Nat), l1.length = l2.length → (l1.zip l2).map Prod.fst = l1 := by
  induction l1 with
  | nil => intro l2 _; simp
  | cons x xs ih =>
    intro l2 h
    cases l2 with
    | nil => simp at h
    | cons y ys => simpa using ih ys (by simpa using h)

/-- Second projections of a zip of equally long lists. -/
theorem zip_snd (l1 : List Nat) :
    ∀ l2 : List (List Nat), l1.length = l2.length → (l1.zip l2).map Prod.snd = l2 := by
  induction l1 with
  | nil => intro l2 h; cases l2 <;> simp_all
  | cons x xs ih =>
    intro l2 h
    cases l2 with
    | nil => simp at h
    | cons y ys => simpa using ih ys (by simpa using h)

/-- The encoded property section of a frame with at least one property is at
least two bytes long. -/
theorem buildProps_two_le (e : Nat) (es : List Nat) (d : List Nat) (ds : List (List Nat)) :
    2 ≤ (buildProps (e :: es) (d :: ds)).length := by
  simp only [buildProps, List.length_cons, List.length_append]
  omega

/-- C1 (amended): the encode/decode round trip `ParseEchoFrame (Build f) = some f`
holds for every Go-typed frame with **1 to 255** properties of at most 255
value bytes each — all fields (transaction id, source and destination class
codes, service code, and the ordered property code/value lists) round-trip
exactly.  The range hypotheses are those Go's field types impose (`TID` a
`uint16`, 24-bit class codes, the equal-length slice invariant every
constructor establishes).  The zero-property case of the original claim is
false: such a frame's encoding is the bare 12-byte header, which
`ParseEchoFrame` rejects against its 14-byte minimum (see the counterexample). -/
theorem C1_roundtrip (f : EchoFrame)
    (hTID : f.TID < 65536) (hSEOJ : f.SEOJ < 16777216) (hDEOJ : f.DEOJ < 16777216)
    (hlen : f.EPC.length = f.EDT.length) (hpos : 0 < f.EPC.length)
    (hmax : f.EPC.length ≤ 255) (hv : ∀ v ∈ f.EDT, v.length ≤ 255) :
    ParseEchoFrame (Build f) = some f := by
  obtain ⟨tid, seoj, deoj, esv, epcs, edts⟩ := f
  simp only at hTID hSEOJ hDEOJ hlen hpos hmax hv
  have hb : Build ⟨tid, seoj, deoj, esv, epcs, edts⟩ =
      [16, 129, tid / 256 % 256, tid % 256, seoj / 65536 % 256, seoj % 65536 / 256,
       seoj % 65536 % 256, deoj / 65536 % 256, deoj % 65536 / 256, deoj % 65536 % 256,
       esv, epcs.length % 256] ++ buildProps epcs edts := by
    simp [Build]
  obtain ⟨e, es, rfl⟩ : ∃ e es, epcs = e :: es := by
    cases epcs with
    | nil => simp at hpos
    | cons e es => exact ⟨e, es, rfl⟩
  obtain ⟨d, ds, rfl⟩ : ∃ d ds, edts = d :: ds := by
    cases edts with
    | nil => simp at hlen
    | cons d ds => exact ⟨d, ds, rfl⟩
  have hbp := buildProps_two_le e es d ds
  have hlength : (Build ⟨tid, seoj, deoj, esv, e :: es, d :: ds⟩).length
      = 12 + (buildProps (e :: es) (d :: ds)).length := by
    rw [hb]
    simp only [List.length_append, List.length_cons, List.length_nil]
    try omega
  have hmod : (e :: es).length % 256 = (e :: es).length :=
    Nat.mod_eq_of_lt (by omega)
  have hprops : parseProps (Build ⟨tid, seoj, deoj, esv, e :: es, d :: ds⟩) 12
      (e :: es).length = some ((e :: es).zip (d :: ds)) := by
    rw [hb]
    have h12 : ([16, 129, tid / 256 % 256, tid % 256, seoj / 65536 % 256,
        seoj % 65536 / 256, seoj % 65536 % 256, deoj / 65536 % 256,
        deoj % 65536 / 256, deoj % 65536 % 256, esv,
        (e :: es).length % 256] : List Nat).length = 12 := by simp
    rw [← h12]
    exact parseProps_append (e :: es) (d :: ds) _ hlen hv
  have hg0 : (Build ⟨tid, seoj, deoj, esv, e :: es, d :: ds⟩).getD 0 0 = 16 := by rw [hb]; rfl
  have hg1 : (Build ⟨tid, seoj, deoj, esv, e :: es, d :: ds⟩).getD 1 0 = 129 := by rw [hb]; rfl
  have hg2 : (Build ⟨tid, seoj, deoj, esv, e :: es, d :: ds⟩).getD 2 0
      = tid / 256 % 256 := by rw [hb]; rfl
  have hg3 : (Build ⟨tid, seoj, deoj, esv, e :: es, d :: ds⟩).getD 3 0
      = tid % 256 := by rw [hb]; rfl
  have hg4 : (Build ⟨tid, seoj, deoj, esv, e :: es, d :: ds⟩).getD 4 0
      = seoj / 65536 % 256 := by rw [hb]; rfl
  have hg5 : (Build ⟨tid, seoj, deoj, esv, e :: es, d :: ds⟩).getD 5 0
      = seoj % 65536 / 256 := by rw [hb]; rfl
  have hg6 : (Build ⟨tid, seoj, deoj, esv, e :: es, d :: ds⟩).getD 6 0
      = seoj % 65536 % 256 := by rw [hb]; rfl
  have hg7 : (Build ⟨tid, seoj, deoj, esv, e :: es, d :: ds⟩).getD 7 0
      = deoj / 65536 % 256 := by rw [hb]; rfl
  have hg8 : (Build ⟨tid, seoj, deoj, esv, e :: es, d :: ds⟩).getD 8 0
      = deoj % 65536 / 256 := by rw [hb]; rfl
  have hg9 : (Build ⟨tid, seoj, deoj, esv, e :: es, d :: ds⟩).getD 9 0
      = deoj % 65536 % 256 := by rw [hb]; rfl
  have hg10 : (Build ⟨tid, seoj, deoj, esv, e :: es, d :: ds⟩).getD 10 0
      = esv := by rw [hb]; rfl
  have hg11 : (Build ⟨tid, seoj, deoj, esv, e :: es, d :: ds⟩).getD 11 0
      = (e :: es).length % 256 := by rw [hb]; rfl
  unfold ParseEchoFrame
  rw [if_neg (by rw [hlength]; omega)]
  rw [if_neg (by rw [hg0, hg1]; simp [HeaderEchonetLite])]
  rw [hg11, hmod, hprops]
  simp only [Option.some.injEq, EchoFrame.mk.injEq]
  rw [hg2, hg3, hg4, hg5, hg6, hg7, hg8, hg9, hg10]
  refine ⟨by omega, by omega, by omega, rfl, ?_, ?_⟩
  · exact zip_fst _ _ hlen
  · exact zip_snd _ _ hlen


/-- C1 counterexample: the round trip fails for a frame with zero properties.
Its encoding is exactly the 12-byte header, and `ParseEchoFrame` rejects every
buffer shorter than 14 bytes, so decoding returns an error instead of the
frame. -/
theorem C1_counterexample :
    (Build frameNoProps).length = 12 ∧ ParseEchoFrame (Build frameNoProps) = none := by
  decide

/-- C1 witness: the round trip evaluated on a concrete one-property frame. -/
theorem C1_witness : ParseEchoFrame (Build frameOneProp) = some frameOneProp :=
  C1_roundtrip frameOneProp (by decide) (by decide) (by decide) (by decide)
    (by decide) (by decide) (by decide)

/-- When the declared triplets do not fit the buffer, the property loop fails. -/
theorem parseProps_of_unfit (raw : List Nat) :
    ∀ n i, tripletsFitFrom raw i n = false → parseProps raw i n = none := by
  intro n
  induction n with
  | zero => intro i h; simp [tripletsFitFrom] at h
  | succ n ih =>
    intro i h
    rw [tripletsFitFrom] at h
    rw [parseProps]
    by_cases h1 : raw.length < i + 2
    · rw [if_pos h1]
    · rw [if_neg h1]
      by_cases h2 : raw.length < i + 2 + raw.getD (i + 1) 0
      · rw [if_pos h2]
      · rw [if_neg h2]
        have h3 : tripletsFitFrom raw (i + 2 + raw.getD (i + 1) 0) n = false := by
          simp only [Bool.and_eq_false_iff, decide_eq_false_iff_not] at h
          rcases h with (h | h) | h
          · omega
          · omega
          · exact h
        rw [ih _ h3]

/-- C8: `ParseEchoFrame` returns an error (never a frame) on every buffer
shorter than 12 bytes, on every buffer whose leading two bytes are not the
`0x1081` marker, and on every buffer whose declared property triplets do not
all fit inside it. -/
theorem C8_parse_errors (raw : List Nat)
    (h : raw.length < 12 ∨ raw.getD 0 0 * 256 + raw.getD 1 0 ≠ HeaderEchonetLite ∨
      tripletsFitFrom raw 12 (raw.getD 11 0) = false) :
    ParseEchoFrame raw = none := by
  unfold ParseEchoFrame
  by_cases h14 : raw.length < 14
  · rw [if_pos h14]
  · rw [if_neg h14]
    rcases h with h | h | h
    · omega
    · rw [if_pos h]
    · by_cases hdr : raw.getD 0 0 * 256 + raw.getD 1 0 ≠ HeaderEchonetLite
      · rw [if_pos hdr]
      · rw [if_neg hdr, parseProps_of_unfit raw _ _ h]

/-- C8 witness: evaluated on a buffer that declares two properties but ends
inside the second triplet. -/
theorem C8_witness : ParseEchoFrame shortTripletBytes = none :=
  C8_parse_errors shortTripletBytes (Or.inr (Or.inr (by decide)))

/-- C9: decoding the bytes of hex `1081000102880105FF017201E80400140064`
succeeds and yields a frame with exactly one property, property code `0xE8`
(`InstantaneousCurrent`) and value bytes `00 14 00 64`. -/
theorem C9_parse_sample :
    ParseEchoFrame c9bytes = some c9frame ∧ c9frame.EPC.length = 1 ∧
      c9frame.EPC = [InstantaneousCurrent] ∧
      c9frame.EDT = [[0x00, 0x14, 0x00, 0x64]] := by
  decide

/-- C10: every frame produced by `NewEchoFrame` or by a successful
`ParseEchoFrame` has as many property codes as property values; `NewEchoFrame`
with a non-nil value list truncates both lists to the shorter length
(`min (len epc) (len edt)`); and with a nil value list it keeps all `len epc`
codes, each value being nil (zero-length). -/
theorem C10_invariants :
    (∀ r dst esv epc edt,
        (NewEchoFrame r dst esv epc edt).EPC.length
          = (NewEchoFrame r dst esv epc edt).EDT.length) ∧
    (∀ raw fr, ParseEchoFrame raw = some fr → fr.EPC.length = fr.EDT.length) ∧
    (∀ r dst esv epc edt,
        (NewEchoFrame r dst esv epc (some edt)).EPC
            = epc.take (min epc.length edt.length) ∧
          (NewEchoFrame r dst esv epc (some edt)).EDT
            = edt.take (min epc.length edt.length)) ∧
    (∀ r dst esv epc,
        (NewEchoFrame r dst esv epc none).EPC = epc ∧
          (NewEchoFrame r dst esv epc none).EDT = List.replicate epc.length []) := by
  have hmin : ∀ (epc : List Nat) (l : List (List Nat)),
      (if epc.length > l.length then l.length else epc.length)
        = min epc.length l.length := by
    intro epc l
    rcases Nat.le_total epc.length l.length with h | h
    · rw [if_neg (by omega)]; omega
    · by_cases hlt : epc.length > l.length
      · rw [if_pos hlt]; omega
      · rw [if_neg hlt]; omega
  refine ⟨?_, ?_, ?_, ?_⟩
  · intro r dst esv epc edt
    cases edt with
    | none => simp [NewEchoFrame]
    | some l =>
      simp only [NewEchoFrame, List.length_take, hmin]
      omega
  · intro raw fr h
    unfold ParseEchoFrame at h
    by_cases h14 : raw.length < 14
    · rw [if_pos h14] at h; cases h
    · rw [if_neg h14] at h
      by_cases hdr : raw.getD 0 0 * 256 + raw.getD 1 0 ≠ HeaderEchonetLite
      · rw [if_pos hdr] at h; cases h
      · rw [if_neg hdr] at h
        cases hp : parseProps raw 12 (raw.getD 11 0) with
        | none => rw [hp] at h; cases h
        | some props =>
          rw [hp] at h
          cases h
          simp
  · intro r dst esv epc edt
    constructor
    · simp only [NewEchoFrame, hmin]
    · simp only [NewEchoFrame, hmin]
  · intro r dst esv epc
    constructor
    · simp [NewEchoFrame]
    · simp [NewEchoFrame]

/-- C10 witness: the parse-invariant branch evaluated on a concrete
one-property request buffer. -/
theorem C10_witness :
    ParseEchoFrame c10bytes = some c10frame ∧
      c10frame.EPC.length = c10frame.EDT.length :=
  ⟨by decide, C10_invariants.2.1 c10bytes c10frame (by decide)⟩

/-- The property-comparison loop agrees with list equality once the lengths
are known to agree. -/
theorem epcEq_iff (xs : List Nat) :
    ∀ ys : List Nat, xs.length = ys.length → (epcEq xs ys = true ↔ xs = ys) := by
  induction xs with
  | nil =>
    intro ys h
    cases ys with
    | nil => simp [epcEq]
    | cons y ys => simp at h
  | cons x xs ih =>
    intro ys h
    cases ys with
    | nil => simp at h
    | cons y ys =>
      rw [epcEq]
      by_cases hxy : x = y
      · subst hxy
        rw [if_neg (by simp)]
        rw [ih ys (by simpa using h)]
        simp
      · rw [if_pos (by simpa using hxy)]
        simp [hxy]

/-- C2: `CorrespondTo f target` holds exactly when the transaction ids agree,
the endpoint class codes are swapped, the service codes differ by exactly
`+0x10` or `-0x10`, the property counts agree, the property codes agree
positionally, and that shared property count is nonzero.  (The predicate is a
pure function by construction.) -/
theorem C2_correspondTo_iff (f target : EchoFrame) :
    CorrespondTo f target = true ↔
      (f.TID = target.TID ∧ f.SEOJ = target.DEOJ ∧ f.DEOJ = target.SEOJ ∧
        ((f.ESV : Int) - (target.ESV : Int) = 16 ∨
          (f.ESV : Int) - (target.ESV : Int) = -16) ∧
        f.EPC.length = target.EPC.length ∧ f.EPC = target.EPC ∧
        f.EPC ≠ []) := by
  unfold CorrespondTo
  by_cases h1 : f.TID ≠ target.TID
  · rw [if_pos h1]; simp; intro h; exact absurd h h1
  · rw [if_neg h1]
    push_neg at h1
    by_cases h2 : f.SEOJ ≠ target.DEOJ
    · rw [if_pos h2]; simp; intro _ h; exact absurd h h2
    · rw [if_neg h2]
      push_neg at h2
      by_cases h3 : f.DEOJ ≠ target.SEOJ
      · rw [if_pos h3]; simp; intro _ _ h; exact absurd h h3
      · rw [if_neg h3]
        push_neg at h3
        by_cases h4 : (f.ESV : Int) - (target.ESV : Int) ≠ -16 ∧
            (f.ESV : Int) - (target.ESV : Int) ≠ 16
        · rw [if_pos h4]
          simp only [Bool.false_eq_true, false_iff]
          rintro ⟨-, -, -, h | h, -⟩
          · exact absurd h h4.2
          · exact absurd h h4.1
        · rw [if_neg h4]
          by_cases h5 : f.EPC.length = 0
          · rw [if_pos h5]
            simp only [Bool.false_eq_true, false_iff]
            rintro ⟨-, -, -, -, -, -, hne⟩
            exact hne (List.length_eq_zero.mp h5)
          · rw [if_neg h5]
            by_cases h6 : f.EPC.length ≠ target.EPC.length
            · rw [if_pos h6]
              simp only [Bool.false_eq_true, false_iff]
              rintro ⟨-, -, -, -, h, -⟩
              exact absurd h h6
            · rw [if_neg h6]
              push_neg at h6
              rw [epcEq_iff _ _ h6]
              constructor
              · intro heq
                refine ⟨h1, h2, h3, by omega, h6, heq, ?_⟩
                exact fun hnil => h5 (by simp [hnil])
              · rintro ⟨-, -, -, -, -, heq, -⟩
                exact heq



/-- Reaching a `FAIL`-prefixed line through non-terminal lines rejects the
command, whatever was accumulated. -/
theorem sendSKCommandLoop_fail (cmd failLine : Str) (rest : List Str)
    (hf : List.isPrefixOf failMarker failLine = true) :
    ∀ (pre : List Str) (acc : Str),
      (∀ l ∈ pre, List.isPrefixOf failMarker l = false ∧ l ≠ okMarker ∧
        List.isPrefixOf skll64Marker cmd = false) →
      sendSKCommandLoop cmd (pre ++ failLine :: rest) acc = (.rejected failLine, rest) := by
  intro pre
  induction pre with
  | nil =>
    intro acc _
    simp [sendSKCommandLoop, hf]
  | cons l ls ih =>
    intro acc hp
    have hl := hp l (by simp)
    rw [List.cons_append, sendSKCommandLoop]
    rw [hl.1]
    rw [if_neg (by simp)]
    rw [if_neg hl.2.1, hl.2.2]
    rw [if_neg (by simp)]
    exact ih (acc ++ l) (fun x hx => hp x (by simp [hx]))

/-- Reaching the literal `OK` line through non-terminal lines succeeds with
the concatenation of everything before it. -/
theorem sendSKCommandLoop_ok (cmd : Str) (rest : List Str) :
    ∀ (pre : List Str) (acc : Str),
      (∀ l ∈ pre, List.isPrefixOf failMarker l = false ∧ l ≠ okMarker ∧
        List.isPrefixOf skll64Marker cmd = false) →
      sendSKCommandLoop cmd (pre ++ okMarker :: rest) acc
        = (.ok (pre.foldl (fun a b => a ++ b) acc), rest) := by
  intro pre
  induction pre with
  | nil =>
    intro acc _
    rw [List.nil_append, sendSKCommandLoop]
    rw [show List.isPrefixOf failMarker okMarker = false from by decide]
    rw [if_neg (by simp)]
    rw [if_pos rfl]
    rfl
  | cons l ls ih =>
    intro acc hp
    have hl := hp l (by simp)
    rw [List.cons_append, sendSKCommandLoop]
    rw [hl.1]
    rw [if_neg (by simp)]
    rw [if_neg hl.2.1, hl.2.2]
    rw [if_neg (by simp)]
    rw [ih (acc ++ l) (fun x hx => hp x (by simp [hx]))]
    rfl

/-- C5: for `sendSKCommand` run against a sequence of received lines:
a `"FAIL "`-prefixed line arriving before any terminal line rejects the
command carrying that line; the literal `"OK"` line arriving first succeeds
with the concatenation of all lines received before it (possibly empty); and
an address-resolution command (`"SKLL64 "`-prefixed) succeeds immediately on
the first received non-terminal line.  (`∀ l ∈ pre, ...` says every earlier
line is non-terminal for the command being run; for an `SKLL64` command that
forces `pre = []`, since its first non-`FAIL`, non-`OK` line is already
terminal.) -/
theorem C5_sendSKCommand :
    (∀ (cmd failLine : Str) (pre rest : List Str),
      (∀ l ∈ pre, List.isPrefixOf failMarker l = false ∧ l ≠ okMarker ∧
        List.isPrefixOf skll64Marker cmd = false) →
      List.isPrefixOf failMarker failLine = true →
      (sendSKCommand cmd (pre ++ failLine :: rest)).1 = .rejected failLine) ∧
    (∀ (cmd : Str) (pre rest : List Str),
      (∀ l ∈ pre, List.isPrefixOf failMarker l = false ∧ l ≠ okMarker ∧
        List.isPrefixOf skll64Marker cmd = false) →
      (sendSKCommand cmd (pre ++ okMarker :: rest)).1
        = .ok (pre.foldl (fun a b => a ++ b) [])) ∧
    (∀ (cmd line : Str) (rest : List Str),
      List.isPrefixOf skll64Marker cmd = true →
      List.isPrefixOf failMarker line = false → line ≠ okMarker →
      (sendSKCommand cmd (line :: rest)).1 = .ok line) := by
  refine ⟨?_, ?_, ?_⟩
  · intro cmd failLine pre rest hp hf
    unfold sendSKCommand
    rw [sendSKCommandLoop_fail cmd failLine rest hf pre [] hp]
  · intro cmd pre rest hp
    unfold sendSKCommand
    rw [sendSKCommandLoop_ok cmd rest pre [] hp]
  · intro cmd line rest hc hf hok
    unfold sendSKCommand
    rw [sendSKCommandLoop]
    rw [hf]
    rw [if_neg (by simp)]
    rw [if_neg hok, hc]
    rw [if_pos rfl]
    rfl

/-- C5 witness: the three behaviours evaluated on concrete commands and
line sequences. -/
theorem C5_witness :
    (sendSKCommand cmdSREG ([lineE1] ++ lineFail :: [])).1 = .rejected lineFail ∧
      (sendSKCommand cmdSREG ([lineE1, lineE2] ++ okMarker :: [])).1
        = .ok ([lineE1, lineE2].foldl (fun a b => a ++ b) []) ∧
      (sendSKCommand cmdSKLL64 (lineAddr :: [])).1 = .ok lineAddr :=
  ⟨C5_sendSKCommand.1 cmdSREG lineFail [lineE1] [] (by decide) (by decide),
    C5_sendSKCommand.2.1 cmdSREG [lineE1, lineE2] [] (by decide),
    C5_sendSKCommand.2.2 cmdSKLL64 lineAddr [] (by decide) (by decide) (by decide)⟩

/-- C7 counterexample: after a stream read error the reader goroutine's event
trace contains no queue closure — `log.Fatal` exits the process before the
deferred `close(ch)` can run, so the consumer never observes the promised
"no more lines" signal. -/
theorem C7_counterexample :
    ReaderEvent.closedQueue ∉ readerTrace [lineX] true := by
  decide

/-- C7 (amended): on clean end of stream the queue is closed after all
buffered lines (trace: every line emitted, then the closure); on a stream
read error the goroutine instead reaches `log.Fatal`, which terminates the
process without ever closing the queue. -/
theorem C7_reader_close :
    (∀ lines, readerTrace lines false = lines.map .emit ++ [.closedQueue]) ∧
    (∀ lines, readerTrace lines true = lines.map .emit ++ [.fatalExit] ∧
      ReaderEvent.closedQueue ∉ readerTrace lines true) := by
  constructor
  · intro lines
    simp [readerTrace]
  · intro lines
    constructor
    · simp [readerTrace]
    · intro hmem
      simp only [readerTrace, if_pos, List.mem_append, List.mem_map] at hmem
      rcases hmem with ⟨a, -, ha⟩ | h
      · cases ha
      · simp at h



/-- The join-phase event loop only appends to the trace it is given. -/
theorem panaInner_append (input : List Str) :
    ∀ tr : List PanaEvent,
      panaInner input tr
        = (tr ++ (panaInner input []).1, (panaInner input []).2) := by
  induction input with
  | nil => intro tr; simp [panaInner]
  | cons line rest ih =>
    intro tr
    cases h24 : List.isPrefixOf event24Marker line with
    | true =>
      cases h25 : List.isPrefixOf event25Marker line with
      | true => simp [panaInner, h24, h25]
      | false =>
        simp only [panaInner, h24, h25, if_true, if_false, Bool.false_eq_true,
          ite_true, ite_false]
        rw [ih (tr ++ [PanaEvent.loggedRetry] ++ [PanaEvent.resetAttemptTimer]),
          ih ([] ++ [PanaEvent.loggedRetry] ++ [PanaEvent.resetAttemptTimer])]
        simp
    | false =>
      cases h25 : List.isPrefixOf event25Marker line with
      | true => simp [panaInner, h24, h25]
      | false =>
        simp only [panaInner, h24, h25, if_true, if_false, Bool.false_eq_true,
          ite_true, ite_false]
        rw [ih (tr ++ [PanaEvent.resetAttemptTimer]),
          ih ([] ++ [PanaEvent.resetAttemptTimer])]
        simp

/-- Starting from any trace, the join-phase event loop records only retry
logs, the final success log, and per-attempt timer resets — never a join
issuance and never a total-timer reset. -/
theorem panaInner_events (input : List Str) :
    ∀ (tr : List PanaEvent) (e : PanaEvent), e ∈ (panaInner input tr).1 →
      e ∈ tr ∨ e = .loggedRetry ∨ e = .loggedEnd ∨ e = .resetAttemptTimer := by
  induction input with
  | nil =>
    intro tr e h
    simp only [panaInner] at h
    exact Or.inl h
  | cons line rest ih =>
    intro tr e h
    rw [panaInner_append] at h
    simp only [List.mem_append] at h
    rcases h with h | h
    · exact Or.inl h
    · rw [panaInner] at h
      cases h24 : List.isPrefixOf event24Marker line with
      | true =>
        cases h25 : List.isPrefixOf event25Marker line with
        | true =>
          simp only [h24, h25, if_true, ite_true] at h
          simp only [List.nil_append, List.mem_append, List.mem_singleton] at h
          rcases h with h | h
          · exact Or.inr (Or.inl h)
          · exact Or.inr (Or.inr (Or.inl h))
        | false =>
          simp only [h24, h25, if_true, ite_true, Bool.false_eq_true, if_false,
            ite_false] at h
          rcases ih _ e h with h | h
          · simp only [List.nil_append, List.mem_append, List.mem_singleton] at h
            rcases h with h | h
            · exact Or.inr (Or.inl h)
            · exact Or.inr (Or.inr (Or.inr h))
          · exact Or.inr h
      | false =>
        cases h25 : List.isPrefixOf event25Marker line with
        | true =>
          simp only [h24, h25, if_true, ite_true, Bool.false_eq_true, if_false,
            ite_false] at h
          simp only [List.nil_append, List.mem_singleton] at h
          exact Or.inr (Or.inr (Or.inl h))
        | false =>
          simp only [h24, h25, Bool.false_eq_true, if_false, ite_false] at h
          rcases ih _ e h with h | h
          · simp only [List.nil_append, List.mem_singleton] at h
            exact Or.inr (Or.inr (Or.inr h))
          · exact Or.inr h

/-- C4: while in the `Joining` state, an `"EVENT 24 "` link-layer-failure
line logs the retry message, keeps the machine in the joining loop and resets
only the per-attempt timer — but, contrary to the claim and to the code's own
`"retrying..."` log message, `SKJOIN` is **never** issued a second time: every
path of the inner `select` either returns or continues the inner loop, so the
enclosing `for` never reaches a second iteration.  Conjunct 1: for every line
sequence the join phase issues the join exactly once and never resets the
total timer.  Conjunct 2: the concrete failing run — `SKJOIN` accepted
(`OK`), then `EVENT 24`, then `EVENT 25` — produces exactly one join
issuance, the retry log, one per-attempt timer reset and the success exit. -/
theorem C4_join_issued_once :
    (∀ (ip : Str) (input : List Str), ∃ extra,
      (execPANAJoin ip input).1 = .issuedJoin :: extra ∧
        PanaEvent.issuedJoin ∉ extra ∧ PanaEvent.resetTotalTimer ∉ extra) ∧
    execPANAJoin ipSample [okMarker, evt24Line, evt25Line]
      = ([.issuedJoin, .loggedRetry, .resetAttemptTimer, .loggedEnd],
          .authenticated) := by
  constructor
  · intro ip input
    unfold execPANAJoin
    cases hsk : sendSKCommand (("SKJOIN ").toList ++ ip) input with
    | mk r rest =>
      cases r with
      | ok res =>
        dsimp only
        refine ⟨(panaInner rest []).1, ?_, ?_, ?_⟩
        · rw [panaInner_append rest [.issuedJoin]]
          simp
        · intro hmem
          rcases panaInner_events rest [] _ hmem with h | h | h | h
          · cases h
          · cases h
          · cases h
          · cases h
        · intro hmem
          rcases panaInner_events rest [] _ hmem with h | h | h | h
          · cases h
          · cases h
          · cases h
          · cases h
      | rejected line => exact ⟨[], rfl, by simp, by simp⟩
      | readError => exact ⟨[], rfl, by simp, by simp⟩
  · decide


/-- C3 counterexample: a notification line with a malformed token count does
**not** merely get logged and skipped — it terminates the scan with an error,
even though a later line carries a correlated well-formed frame (second
conjunct: that same later line alone ends the scan successfully). -/
theorem C3_counterexample :
    readCorrespondingEchonetFrame false reqSample [badTokenLine, goodLine]
        = .scanError (unknownFormatMsg ++ badTokenLine) ∧
      readCorrespondingEchonetFrame false reqSample [goodLine] = .found c9frame := by
  decide

/-- C3 (amended): during the response scan only two kinds of lines are
absorbed and scanning continues — a line that is not an `ERXUDP` notification,
and a notification whose well-resolved payload fails frame decoding.  A
malformed token count, a non-hexadecimal declared length, a declared length
matching neither the payload nor half of it, and a non-hexadecimal payload
each **terminate** the scan with an error; the scan otherwise ends only on a
correlated well-formed frame, an exhausted line source (idle timeout or queue
closure) — conjuncts in that order. -/
theorem C3_scan_behaviour :
    (∀ (dse : Bool) (req : EchoFrame) (line : Str) (rest : List Str),
      List.isPrefixOf erxudpMarker line = false →
      readCorrespondingEchonetFrame dse req (line :: rest)
        = readCorrespondingEchonetFrame dse req rest) ∧
    (∀ (dse : Bool) (req : EchoFrame) (line : Str) (rest : List Str)
        (dataLen0 dataLen : Nat) (data : Str) (rawData : List Nat),
      List.isPrefixOf erxudpMarker line = true →
      ¬ (splitN line (if dse then 10 else 9)).length < (if dse then 10 else 9) →
      parseHexInt32 ((splitN line (if dse then 10 else 9)).getD
        ((if dse then 10 else 9) - 2) []) = some dataLen0 →
      resolveData line ((splitN line (if dse then 10 else 9)).getD
        ((if dse then 10 else 9) - 1) []) dataLen0 = .ok (dataLen, data) →
      (if dataLen = data.length then Except.ok (data.map Char.toNat)
        else
          match hexDecode data with
          | some r => Except.ok r
          | none => Except.error (notHexMsg ++ line)) = Except.ok rawData →
      ParseEchoFrame rawData = none →
      readCorrespondingEchonetFrame dse req (line :: rest)
        = readCorrespondingEchonetFrame dse req rest) ∧
    (∀ (dse : Bool) (req : EchoFrame) (line : Str) (rest : List Str),
      List.isPrefixOf erxudpMarker line = true →
      (splitN line (if dse then 10 else 9)).length < (if dse then 10 else 9) →
      readCorrespondingEchonetFrame dse req (line :: rest)
        = .scanError (unknownFormatMsg ++ line)) ∧
    (∀ (dse : Bool) (req : EchoFrame) (line : Str) (rest : List Str),
      List.isPrefixOf erxudpMarker line = true →
      ¬ (splitN line (if dse then 10 else 9)).length < (if dse then 10 else 9) →
      parseHexInt32 ((splitN line (if dse then 10 else 9)).getD
        ((if dse then 10 else 9) - 2) []) = none →
      readCorrespondingEchonetFrame dse req (line :: rest)
        = .scanError (notNumberMsg ++ line)) ∧
    (∀ (dse : Bool) (req : EchoFrame) (line : Str) (rest : List Str)
        (dataLen0 : Nat) (msg : Str),
      List.isPrefixOf erxudpMarker line = true →
      ¬ (splitN line (if dse then 10 else 9)).length < (if dse then 10 else 9) →
      parseHexInt32 ((splitN line (if dse then 10 else 9)).getD
        ((if dse then 10 else 9) - 2) []) = some dataLen0 →
      resolveData line ((splitN line (if dse then 10 else 9)).getD
        ((if dse then 10 else 9) - 1) []) dataLen0 = .error msg →
      readCorrespondingEchonetFrame dse req (line :: rest) = .scanError msg) ∧
    (∀ (dse : Bool) (req : EchoFrame) (line : Str) (rest : List Str)
        (dataLen0 dataLen : Nat) (data : Str),
      List.isPrefixOf erxudpMarker line = true →
      ¬ (splitN line (if dse then 10 else 9)).length < (if dse then 10 else 9) →
      parseHexInt32 ((splitN line (if dse then 10 else 9)).getD
        ((if dse then 10 else 9) - 2) []) = some dataLen0 →
      resolveData line ((splitN line (if dse then 10 else 9)).getD
        ((if dse then 10 else 9) - 1) []) dataLen0 = .ok (dataLen, data) →
      dataLen ≠ data.length → hexDecode data = none →
      readCorrespondingEchonetFrame dse req (line :: rest)
        = .scanError (notHexMsg ++ line)) := by
  refine ⟨?_, ?_, ?_, ?_, ?_, ?_⟩
  · intro dse req line rest h
    rw [readCorrespondingEchonetFrame, if_pos h]
  · intro dse req line rest dataLen0 dataLen data rawData hpre hlen hnum hres hraw hparse
    rw [readCorrespondingEchonetFrame, if_neg (by simp [hpre])]
    dsimp only
    rw [if_neg hlen, hnum]
    dsimp only
    rw [hres]
    dsimp only
    rw [hraw]
    dsimp only
    rw [hparse]
  · intro dse req line rest hpre hlen
    rw [readCorrespondingEchonetFrame, if_neg (by simp [hpre])]
    dsimp only
    rw [if_pos hlen]
  · intro dse req line rest hpre hlen hnum
    rw [readCorrespondingEchonetFrame, if_neg (by simp [hpre])]
    dsimp only
    rw [if_neg hlen, hnum]
  · intro dse req line rest dataLen0 msg hpre hlen hnum hres
    rw [readCorrespondingEchonetFrame, if_neg (by simp [hpre])]
    dsimp only
    rw [if_neg hlen, hnum]
    dsimp only
    rw [hres]
  · intro dse req line rest dataLen0 dataLen data hpre hlen hnum hres hne hhex
    rw [readCorrespondingEchonetFrame, if_neg (by simp [hpre])]
    dsimp only
    rw [if_neg hlen, hnum]
    dsimp only
    rw [hres]
    dsimp only
    rw [if_neg hne, hhex]

/-- C3 witness: the amended scan behaviour evaluated on concrete lines — a
non-notification line and a decode-failure notification are absorbed, while a
malformed token count, a non-hexadecimal length, a length mismatch and a
non-hexadecimal payload each end the scan with the corresponding error. -/
theorem C3_witness :
    readCorrespondingEchonetFrame false reqSample [nonNotifLine]
        = readCorrespondingEchonetFrame false reqSample [] ∧
      readCorrespondingEchonetFrame false reqSample [decodeFailLine]
        = readCorrespondingEchonetFrame false reqSample [] ∧
      readCorrespondingEchonetFrame false reqSample [badTokenLine]
        = .scanError (unknownFormatMsg ++ badTokenLine) ∧
      readCorrespondingEchonetFrame false reqSample [notNumberLine]
        = .scanError (notNumberMsg ++ notNumberLine) ∧
      readCorrespondingEchonetFrame false reqSample [mismatchLine]
        = .scanError (lengthMismatchMsg ++ mismatchLine) ∧
      readCorrespondingEchonetFrame false reqSample [notHexLine]
        = .scanError (notHexMsg ++ notHexLine) :=
  ⟨C3_scan_behaviour.1 false reqSample nonNotifLine [] (by decide),
    C3_scan_behaviour.2.1 false reqSample decodeFailLine [] 2 2
      (("0000").toList) [0, 0] (by decide) (by decide) (by decide) (by rfl)
      (by rfl) (by decide),
    C3_scan_behaviour.2.2.1 false reqSample badTokenLine [] (by decide) (by decide),
    C3_scan_behaviour.2.2.2.1 false reqSample notNumberLine [] (by decide)
      (by decide) (by decide),
    C3_scan_behaviour.2.2.2.2.1 false reqSample mismatchLine []
      3 (lengthMismatchMsg ++ mismatchLine) (by decide) (by decide) (by decide)
      (by rfl),
    C3_scan_behaviour.2.2.2.2.2 false reqSample notHexLine []
      2 2 (("zz!x").toList) (by decide) (by decide) (by decide) (by rfl)
      (by decide) (by decide)⟩



/-- One retry iteration of `execEchoRequest`: the `SKSENDTO` command succeeds
but its reply ends in neither `" 00"` nor `" 02"`, so the engine records the
current TID and backoff interval, doubles the interval, regenerates the TID
from the next random draw and loops. -/
theorem execEchoRequest_retry_step (dse : Bool) (ipAddr : Str) (fu : Nat)
    (rq : EchoFrame) (ri : Nat) (inp rst : List Str) (r : Nat) (rg : List Nat) (s : Str)
    (h : sendSKCommand (mkSendCmd dse ipAddr (Build rq)) inp = (.ok s, rst))
    (ha : List.isSuffixOf udpNoPana s = false)
    (hb : List.isSuffixOf udpSendOk s = false) :
    execEchoRequest dse ipAddr (fu + 1) rq ri inp (r :: rg)
      = (rq.TID ::
          (execEchoRequest dse ipAddr fu (RegenerateTID rq r) (ri * 2) rst rg).1,
        ri :: (execEchoRequest dse ipAddr fu (RegenerateTID rq r) (ri * 2) rst rg).2.1,
        (execEchoRequest dse ipAddr fu (RegenerateTID rq r) (ri * 2) rst rg).2.2) := by
  rw [execEchoRequest, h]
  dsimp only
  rw [if_neg (by simp [ha]), if_neg (by simp [hb])]
  simp only [List.getD_cons_zero, List.drop_succ_cons, List.drop_zero]

/-- The successful iteration of `execEchoRequest`: the reply ends in `" 00"`,
so the engine records the TID and hands over to the response scan. -/
theorem execEchoRequest_success_step (dse : Bool) (ipAddr : Str) (fu : Nat)
    (rq : EchoFrame) (ri : Nat) (inp rst : List Str) (rg : List Nat) (s : Str)
    (h : sendSKCommand (mkSendCmd dse ipAddr (Build rq)) inp = (.ok s, rst))
    (ha : List.isSuffixOf udpNoPana s = false)
    (hb : List.isSuffixOf udpSendOk s = true) :
    execEchoRequest dse ipAddr (fu + 1) rq ri inp rg
      = ([rq.TID], [], .readResult (readCorrespondingEchonetFrame dse rq rst)) := by
  rw [execEchoRequest, h]
  dsimp only
  rw [if_neg (by simp [ha]), if_pos hb]

/-- C6 (amended): when three consecutive `SKSENDTO` attempts report local
send failure and the fourth reports success, the sleeps before the three
retries are exactly 500 ms, 1000 ms and 2000 ms, and the TIDs of the four
transmission attempts are the frame's incoming TID followed by the three
successive random draws (reduced mod `2^16`) — a fresh id is assigned before
every **retry**, while the first attempt transmits the id the frame already
carries (`NewEchoFrame` assigned that one at construction, outside this
function).  The four ids are therefore pairwise distinct whenever the carried
id and the three draws are. -/
theorem C6_retry_backoff (dse : Bool) (ipAddr : Str) (fuel : Nat) (req : EchoFrame)
    (input rest1 rest2 rest3 rest4 : List Str) (rtail : List Nat) (r1 r2 r3 : Nat)
    (s1 s2 s3 s4 : Str)
    (h1 : sendSKCommand (mkSendCmd dse ipAddr (Build req)) input = (.ok s1, rest1))
    (h1a : List.isSuffixOf udpNoPana s1 = false)
    (h1b : List.isSuffixOf udpSendOk s1 = false)
    (h2 : sendSKCommand (mkSendCmd dse ipAddr (Build (RegenerateTID req r1))) rest1
      = (.ok s2, rest2))
    (h2a : List.isSuffixOf udpNoPana s2 = false)
    (h2b : List.isSuffixOf udpSendOk s2 = false)
    (h3 : sendSKCommand (mkSendCmd dse ipAddr
      (Build (RegenerateTID (RegenerateTID req r1) r2))) rest2 = (.ok s3, rest3))
    (h3a : List.isSuffixOf udpNoPana s3 = false)
    (h3b : List.isSuffixOf udpSendOk s3 = false)
    (h4 : sendSKCommand (mkSendCmd dse ipAddr
      (Build (RegenerateTID (RegenerateTID (RegenerateTID req r1) r2) r3))) rest3
      = (.ok s4, rest4))
    (h4a : List.isSuffixOf udpNoPana s4 = false)
    (h4b : List.isSuffixOf udpSendOk s4 = true) :
    execEchoRequest dse ipAddr (fuel + 4) req 500 input (r1 :: r2 :: r3 :: rtail)
        = ([req.TID, r1 % 65536, r2 % 65536, r3 % 65536], [500, 1000, 2000],
          .readResult (readCorrespondingEchonetFrame dse
            (RegenerateTID (RegenerateTID (RegenerateTID req r1) r2) r3) rest4)) ∧
      (List.Pairwise (fun a b => a ≠ b)
          [req.TID, r1 % 65536, r2 % 65536, r3 % 65536] →
        List.Pairwise (fun a b => a ≠ b)
          (execEchoRequest dse ipAddr (fuel + 4) req 500 input
            (r1 :: r2 :: r3 :: rtail)).1) := by
  have heq : execEchoRequest dse ipAddr (fuel + 4) req 500 input (r1 :: r2 :: r3 :: rtail)
      = ([req.TID, r1 % 65536, r2 % 65536, r3 % 65536], [500, 1000, 2000],
        .readResult (readCorrespondingEchonetFrame dse
          (RegenerateTID (RegenerateTID (RegenerateTID req r1) r2) r3) rest4)) := by
    rw [show fuel + 4 = fuel + 3 + 1 by omega]
    rw [execEchoRequest_retry_step dse ipAddr (fuel + 3) req 500 input rest1 r1
      (r2 :: r3 :: rtail) s1 h1 h1a h1b]
    rw [show fuel + 3 = fuel + 2 + 1 by omega]
    rw [execEchoRequest_retry_step dse ipAddr (fuel + 2) (RegenerateTID req r1)
      (500 * 2) rest1 rest2 r2 (r3 :: rtail) s2 h2 h2a h2b]
    rw [show fuel + 2 = fuel + 1 + 1 by omega]
    rw [execEchoRequest_retry_step dse ipAddr (fuel + 1)
      (RegenerateTID (RegenerateTID req r1) r2) (500 * 2 * 2) rest2 rest3 r3 rtail
      s3 h3 h3a h3b]
    rw [execEchoRequest_success_step dse ipAddr fuel
      (RegenerateTID (RegenerateTID (RegenerateTID req r1) r2) r3) (500 * 2 * 2 * 2)
      rest3 rest4 rtail s4 h4 h4a h4b]
    simp [RegenerateTID]
  exact ⟨heq, fun hd => by rw [heq]; exact hd⟩

/-- C6 counterexample: in a concrete run with three send failures and a
fourth successful attempt, the backoff sleeps are 500/1000/2000 ms and the
four transmitted TIDs are `[5, 7, 8, 9]` — but the first of them is the TID
the frame already carried (5), which is none of the random draws `[7, 8, 9]`
consumed by the call: no fresh id is assigned before the **first**
transmission attempt, contradicting the claim's "including the first". -/
theorem C6_counterexample :
    (execEchoRequest false ipSample 5 reqRetry 500 inputRetry rngRetry).1
        = [5, 7, 8, 9] ∧
      (execEchoRequest false ipSample 5 reqRetry 500 inputRetry rngRetry).2.1
        = [500, 1000, 2000] ∧
      reqRetry.TID = 5 ∧ 5 ∉ rngRetry := by
  decide

/-- C6 witness: the amended retry theorem evaluated on the concrete run. -/
theorem C6_witness :
    execEchoRequest false ipSample 5 reqRetry 500 inputRetry rngRetry
        = ([5, 7, 8, 9], [500, 1000, 2000],
          .readResult (readCorrespondingEchonetFrame false
            (RegenerateTID (RegenerateTID (RegenerateTID reqRetry 7) 8) 9) [])) ∧
      List.Pairwise (fun a b => a ≠ b)
        (execEchoRequest false ipSample 5 reqRetry 500 inputRetry rngRetry).1 := by
  have h := C6_retry_backoff false ipSample 1 reqRetry inputRetry
    [e21Fail, okMarker, e21Fail, okMarker, e21Ok, okMarker]
    [e21Fail, okMarker, e21Ok, okMarker] [e21Ok, okMarker] [] [] 7 8 9
    (("EVENT 21 FE80::1 01").toList) (("EVENT 21 FE80::1 01").toList)
    (("EVENT 21 FE80::1 01").toList) (("EVENT 21 FE80::1 00").toList)
    (by rfl) (by decide) (by decide)
    (by rfl) (by decide) (by decide)
    (by rfl) (by decide) (by decide)
    (by rfl) (by decide) (by decide)
  exact ⟨h.1, h.2 (by decide)⟩


end Mpsm
